import Mathlib

set_option maxRecDepth 10000
set_option maxHeartbeats 1000000
set_option linter.unusedVariables false

/-!
Verification development for the IMC-2023 match-augmentation and
pipeline-orchestration layer (`imc2023/pipelines/pipeline.py` and
`imc2023/cropping.py`).

Embedding conventions:
* pure numeric code is embedded as Lean functions over `ℤ`/`ℚ`;
* stage methods that mutate `self` and the on-disk stores are embedded as
  explicit state-passing functions over a `PipelineState` record and an
  association-list file system;
* Python exceptions (`AssertionError`, `ValueError`, `AttributeError`,
  `KeyError`) are embedded as `Except`/`Option` results;
* calls into the external hloc/pycolmap engines are recorded as explicit
  call-trace events, with their results supplied by an environment record.
-/

/-- A keypoint: integer pixel coordinates `(x, y)`, zero-indexed. -/
abbrev Keypoint := ℤ × ℤ

/-! ### Keypoint back-rotation transforms

Embeds the three branches of `Pipeline.rotate_keypoints`
(`pipeline.py` lines 341-356).  In the source, `y_max, x_max` are the
height and width of the *rotated* image on disk
(`cv2.imread(rotated_image_dir / image_fn).shape[:2]`). -/

/-- Back-rotation for recorded angle 90: `(x, y)` becomes `(y, x_max - x - 1)`
(`pipeline.py` lines 345-346), where `x_max` is the rotated image width. -/
def backRotate90 (x_max : ℤ) (p : Keypoint) : Keypoint :=
  (p.2, x_max - p.1 - 1)

/-- Back-rotation for recorded angle 180: `(x, y)` becomes
`(x_max - x - 1, y_max - y - 1)` (`pipeline.py` lines 350-351). -/
def backRotate180 (x_max y_max : ℤ) (p : Keypoint) : Keypoint :=
  (x_max - p.1 - 1, y_max - p.2 - 1)

/-- Back-rotation for recorded angle 270: `(x, y)` becomes
`(y_max - y - 1, x)` (`pipeline.py` lines 355-356). -/
def backRotate270 (y_max : ℤ) (p : Keypoint) : Keypoint :=
  (y_max - p.2 - 1, p.1)

/-- One image's keypoint rewrite in `Pipeline.rotate_keypoints`
(`pipeline.py` lines 334-357): angle 0 is skipped (`continue`), angles
90/180/270 apply the corresponding back-rotation to every keypoint, and any
other angle leaves `new_keypoints = np.zeros_like(keypoints)` untouched, so
every keypoint becomes `(0, 0)`. -/
def rotate_keypoints_image (angle : ℕ) (x_max y_max : ℤ)
    (kps : List Keypoint) : List Keypoint :=
  if angle = 0 then kps
  else if angle = 90 then kps.map (backRotate90 x_max)
  else if angle = 180 then kps.map (backRotate180 x_max y_max)
  else if angle = 270 then kps.map (backRotate270 y_max)
  else kps.map (fun _ => ((0 : ℤ), (0 : ℤ)))

/-- One entry of the on-disk feature store together with the data the
rotation stage reads for it: the recorded rotation angle
(`self.rotation_angles[image_fn]`) and the rotated image's width and height
(`x_max`, `y_max`). -/
structure FeatureEntry where
  name : String
  angle : ℕ
  x_max : ℤ
  y_max : ℤ
  kps : List Keypoint
deriving DecidableEq, Repr

/-- The `Pipeline.rotate_keypoints` stage (`pipeline.py` lines 322-357): a
no-op unless rotation matching is enabled, otherwise it rewrites every
image's keypoints in place. -/
def rotate_keypoints (use_rotation_matching : Bool)
    (store : List FeatureEntry) : List FeatureEntry :=
  if !use_rotation_matching then store
  else store.map (fun e =>
    { e with kps := rotate_keypoints_image e.angle e.x_max e.y_max e.kps })

/-- C3: for a rotated image of width `W = x_max` and height `H = y_max`,
angle 90 maps each keypoint `(x, y)` to `(y, (W-1)-x)`, angle 180 maps it to
`((W-1)-x, (H-1)-y)`, angle 270 maps it to `((H-1)-y, x)`, keypoints of
images with angle 0 are left untouched, every rewrite is an index-preserving
elementwise map (no reordering), and no keypoint sequence changes length;
the stage applies this rewrite to every image entry of the store. -/
theorem rotate_keypoints_image_transforms (x_max y_max : ℤ)
    (kps : List Keypoint) :
    rotate_keypoints_image 0 x_max y_max kps = kps ∧
    rotate_keypoints_image 90 x_max y_max kps =
      kps.map (fun p => (p.2, (x_max - 1) - p.1)) ∧
    rotate_keypoints_image 180 x_max y_max kps =
      kps.map (fun p => ((x_max - 1) - p.1, (y_max - 1) - p.2)) ∧
    rotate_keypoints_image 270 x_max y_max kps =
      kps.map (fun p => ((y_max - 1) - p.2, p.1)) ∧
    (∀ a : ℕ,
      (rotate_keypoints_image a x_max y_max kps).length = kps.length) ∧
    (∀ store : List FeatureEntry,
      rotate_keypoints true store = store.map (fun e =>
        { e with kps := rotate_keypoints_image e.angle e.x_max e.y_max e.kps })) := by
  refine ⟨rfl, ?_, ?_, ?_, ?_, fun store => rfl⟩
  · apply List.map_congr_left
    intro p _
    simp only [backRotate90, Prod.mk.injEq]
    exact ⟨trivial, by ring⟩
  · apply List.map_congr_left
    intro p _
    simp only [backRotate180, Prod.mk.injEq]
    exact ⟨by ring, by ring⟩
  · apply List.map_congr_left
    intro p _
    simp only [backRotate270, Prod.mk.injEq]
    exact ⟨by ring, trivial⟩
  · intro a
    unfold rotate_keypoints_image
    split
    · rfl
    · split
      · exact List.length_map _ _
      · split
        · exact List.length_map _ _
        · split
          · exact List.length_map _ _
          · exact List.length_map _ _

/-- C4: for every integer pixel coordinate `(x, y)` with `0 ≤ x < W` and
`0 ≤ y < H` in the rotated image, applying the 90-degree back-rotation
(which uses `x_max = W`) and then the 270-degree back-rotation with the
correspondingly swapped dimensions (its image has height `W`, so
`y_max = W`) recovers exactly `(x, y)`; symmetrically, 270 followed by 90
with swapped dimensions (`x_max = H`) also recovers `(x, y)`, so the two
transforms are mutual inverses. -/
theorem backRotate_90_270_mutual_inverse (W H x y : ℤ)
    (hx0 : 0 ≤ x) (hxW : x < W) (hy0 : 0 ≤ y) (hyH : y < H) :
    backRotate270 W (backRotate90 W (x, y)) = (x, y) ∧
    backRotate90 H (backRotate270 H (x, y)) = (x, y) := by
  constructor <;>
    · simp only [backRotate90, backRotate270, Prod.mk.injEq]
      exact ⟨by ring, by ring⟩

/-- Witness for C4 at the spec's concrete case: rotated dimensions
`W = 100`, `H = 50`, keypoint `(10, 20)`. -/
theorem backRotate_90_270_mutual_inverse_witness :
    (0 : ℤ) ≤ 10 ∧ (10 : ℤ) < 100 ∧ (0 : ℤ) ≤ 20 ∧ (20 : ℤ) < 50 ∧
    (backRotate270 100 (backRotate90 100 ((10 : ℤ), (20 : ℤ))) = (10, 20) ∧
     backRotate90 50 (backRotate270 50 ((10 : ℤ), (20 : ℤ))) = (10, 20)) :=
  ⟨by decide, by decide, by decide, by decide,
   backRotate_90_270_mutual_inverse 100 50 10 20 (by decide) (by decide)
     (by decide) (by decide)⟩

/-! ### Ensemble configuration check (`Pipeline.__init__`, lines 75-82)

In the source, `config["features"]` and `config["matches"]` are each either
a single configuration dictionary or a Python list of configuration
dictionaries; `is_ensemble` tests `type(config["features"]) == list`, and
Python `len` applied to a dictionary counts its keys. -/

/-- A configuration value: a single configuration dictionary (represented by
its list of keys) or a list of configuration dictionaries. -/
inductive ConfVal where
  | single (keys : List String)
  | confList (confs : List (List String))
deriving DecidableEq, Repr

/-- Python `len` of a configuration value: key count for a dictionary, list
length for a list. -/
def ConfVal.pyLen : ConfVal → ℕ
  | .single keys => keys.length
  | .confList confs => confs.length

/-- The test `type(self.config["features"]) == list` (`pipeline.py` line 75). -/
def ConfVal.isList : ConfVal → Bool
  | .single _ => false
  | .confList _ => true

/-- The ensemble-arity assertions of `Pipeline.__init__` (`pipeline.py`
lines 75-82), in source order: when `features` is a list, first assert that
`len(features) == len(matches)`, then assert `len(features) == 2`; a failed
assertion is an `AssertionError` carrying the source message, raised during
construction, before `run()` can execute any stage. -/
def pipeline_init_check (features matchesConf : ConfVal) : Except String Unit :=
  if features.isList then
    if features.pyLen = matchesConf.pyLen then
      if features.pyLen = 2 then Except.ok ()
      else Except.error "Only two features are supported for ensemble matching."
    else Except.error "Number of features and matches must be equal for ensemble matching."
  else Except.ok ()

/-- C1: with ensemble mode declared (the feature configuration is a list),
construction succeeds exactly when there are two feature configurations and
an equal number (two) of matching configurations; every other arity errors
at construction time, and in particular one feature configuration together
with two matching configurations raises the equal-count assertion. -/
theorem pipeline_init_check_ensemble_arity (fs : List (List String))
    (ms : ConfVal) :
    (pipeline_init_check (ConfVal.confList fs) ms = Except.ok () ↔
      fs.length = 2 ∧ ms.pyLen = 2) ∧
    (∀ f m₁ m₂ : List String,
      pipeline_init_check (ConfVal.confList [f]) (ConfVal.confList [m₁, m₂]) =
        Except.error
          "Number of features and matches must be equal for ensemble matching.") := by
  constructor
  · constructor
    · intro h
      unfold pipeline_init_check at h
      split_ifs at h with h0 h1 h2
      all_goals
        first
        | exact ⟨h2, by rw [← h1]; exact h2⟩
        | exact absurd rfl h0
        | exact absurd h (by simp)
    · rintro ⟨h2, hm⟩
      unfold pipeline_init_check
      split_ifs with h0 h1 h2'
      all_goals
        first
        | rfl
        | exact absurd h2 h2'
        | exact absurd (show (ConfVal.confList fs).pyLen = ms.pyLen by
            show fs.length = ms.pyLen
            rw [h2, hm]) h1
        | exact absurd rfl h0
  · intro f m₁ m₂
    rfl

/-! ### Exact rational vectors and rotation matrices

`rot_mat_z` and `rotmat2qvec` live in `imc2023/utils`, which is not among
the reviewed sources; they are modelled from the spec (section 4.3(b)). -/

/-- A 3-vector with exact rational entries. -/
structure Vec3 where
  x : ℚ
  y : ℚ
  z : ℚ
deriving DecidableEq, Repr

/-- A 3x3 matrix with exact rational entries, stored by rows. -/
structure Mat3 where
  r0 : Vec3
  r1 : Vec3
  r2 : Vec3
deriving DecidableEq, Repr

/-- Matrix-vector product. -/
def Mat3.mulVec (m : Mat3) (v : Vec3) : Vec3 :=
  ⟨m.r0.x * v.x + m.r0.y * v.y + m.r0.z * v.z,
   m.r1.x * v.x + m.r1.y * v.y + m.r1.z * v.z,
   m.r2.x * v.x + m.r2.y * v.y + m.r2.z * v.z⟩

/-- Matrix-matrix product. -/
def Mat3.mul (a b : Mat3) : Mat3 :=
  ⟨⟨a.r0.x * b.r0.x + a.r0.y * b.r1.x + a.r0.z * b.r2.x,
    a.r0.x * b.r0.y + a.r0.y * b.r1.y + a.r0.z * b.r2.y,
    a.r0.x * b.r0.z + a.r0.y * b.r1.z + a.r0.z * b.r2.z⟩,
   ⟨a.r1.x * b.r0.x + a.r1.y * b.r1.x + a.r1.z * b.r2.x,
    a.r1.x * b.r0.y + a.r1.y * b.r1.y + a.r1.z * b.r2.y,
    a.r1.x * b.r0.z + a.r1.y * b.r1.z + a.r1.z * b.r2.z⟩,
   ⟨a.r2.x * b.r0.x + a.r2.y * b.r1.x + a.r2.z * b.r2.x,
    a.r2.x * b.r0.y + a.r2.y * b.r1.y + a.r2.z * b.r2.y,
    a.r2.x * b.r0.z + a.r2.y * b.r1.z + a.r2.z * b.r2.z⟩⟩

/-- Modelled from the spec: `imc2023.utils.rot_mat_z` is not among the
reviewed sources; section 4.3(b) describes it as "a 3D rotation matrix
representing a rotation about the vertical (depth) axis by the *negative*
of the recorded angle", i.e. `Rz(-angle)` with
`Rz(t) = [[cos t, -sin t, 0], [sin t, cos t, 0], [0, 0, 1]]`, at the
quarter-turn angles produced by preprocessing (0, 90, 180, 270 degrees). -/
def rot_mat_z (angle : ℕ) : Mat3 :=
  if angle = 90 then ⟨⟨0, 1, 0⟩, ⟨-1, 0, 0⟩, ⟨0, 0, 1⟩⟩
  else if angle = 180 then ⟨⟨-1, 0, 0⟩, ⟨0, -1, 0⟩, ⟨0, 0, 1⟩⟩
  else if angle = 270 then ⟨⟨0, -1, 0⟩, ⟨1, 0, 0⟩, ⟨0, 0, 1⟩⟩
  else ⟨⟨1, 0, 0⟩, ⟨0, 1, 0⟩, ⟨0, 0, 1⟩⟩

/-! ### Pipeline state and the reconstruction / back-rotation stages

The state collects exactly the `self` fields that `get_pairs`, `sfm` and
`back_rotate_cameras` read or write.  The pose rotation representation
(`qvec`) is kept abstract as a type parameter `Q` with an encoder
`enc : Mat3 → Q` (the source's `rotmat2qvec`, modelled from the spec as
"re-encoded as the pose's rotation representation") and a decoder
`dec : Q → Mat3` (the source's `im.rotmat()`). -/

/-- One registered image of the sparse model, as used by
`back_rotate_cameras`: its file name, translation `tvec`, and encoded
rotation `qvec`. -/
structure CamImage (Q : Type) where
  name : String
  tvec : Vec3
  qvec : Q
deriving DecidableEq, Repr

/-- A sparse model: the mapping image id to registered image, in iteration
order. -/
structure SparseModel (Q : Type) where
  images : List (ℕ × CamImage Q)
deriving DecidableEq, Repr

/-- The data paths the modelled stages touch. -/
structure DataPaths where
  image_dir : String
  rotated_image_dir : String
  pairs_path : String
  features_retrieval : String
  sfm_dir : String
deriving DecidableEq, Repr

/-- The `self` fields of `Pipeline` read or written by `get_pairs`, `sfm`
and `back_rotate_cameras`. -/
structure PipelineState (Q : Type) where
  paths : DataPaths
  img_list : List String
  n_retrieval : ℕ
  overwrite : Bool
  use_rotation_matching : Bool
  use_rotation_wrapper : Bool
  use_pixsfm : Bool
  pixsfm_max_imgs : ℕ
  sparse_model : Option (SparseModel Q)
  rotation_angles : List (String × ℕ)
deriving DecidableEq, Repr

/-- The on-disk state: an association list from path to an opaque content
token; a write prepends, and lookups take the most recent write. -/
abbrev FS := List (String × ℕ)

/-- Look up a path's current content. -/
def fsGet (fs : FS) (p : String) : Option ℕ :=
  (fs.find? (fun e => e.1 == p)).map (fun e => e.2)

/-- Existence check for a path. -/
def fsExists (fs : FS) (p : String) : Bool :=
  (fsGet fs p).isSome

/-- Write content to a path. -/
def fsWrite (fs : FS) (p : String) (c : ℕ) : FS :=
  (p, c) :: fs

/-- One call into an external engine, recorded in stage traces. -/
inductive EngineCall where
  | pairs_from_exhaustive
  | retrieval_extract (image_dir : String)
  | pairs_from_retrieval
  | pixsfm_subprocess
  | reconstruction_main
deriving DecidableEq, Repr

/-- Results supplied by the external engines for one run of the modelled
stages. -/
structure EngineEnv (Q : Type) where
  exhaustive_pairs_out : ℕ
  retrieval_features_out : ℕ
  retrieval_pairs_out : ℕ
  load_result : Except Unit (SparseModel Q)
  pixsfm_result : Option (SparseModel Q)
  reconstruction_result : Option (SparseModel Q)
  model_file_out : ℕ
deriving Repr

/-- The `Pipeline.get_pairs` stage (`pipeline.py` lines 118-146).  With
fewer images than `config["n_retrieval"]`, exhaustive pairing writes the
pairs file and returns at once, before the existence check; otherwise an
existing pairs file with `overwrite` unset short-circuits the stage, and
in the remaining case retrieval features are extracted (from the rotated
image directory when either rotation mode is active) and retrieval pairing
writes the pairs file. -/
def get_pairs {Q : Type} (env : EngineEnv Q) (st : PipelineState Q)
    (fs : FS) : FS × List EngineCall :=
  if st.img_list.length < st.n_retrieval then
    (fsWrite fs st.paths.pairs_path env.exhaustive_pairs_out,
     [EngineCall.pairs_from_exhaustive])
  else if fsExists fs st.paths.pairs_path && !st.overwrite then
    (fs, [])
  else
    let image_dir :=
      if st.use_rotation_matching || st.use_rotation_wrapper then
        st.paths.rotated_image_dir
      else st.paths.image_dir
    let fs₁ := fsWrite fs st.paths.features_retrieval env.retrieval_features_out
    (fsWrite fs₁ st.paths.pairs_path env.retrieval_pairs_out,
     [EngineCall.retrieval_extract image_dir, EngineCall.pairs_from_retrieval])

/-- The rebuild tail of `Pipeline.sfm` (`pipeline.py` lines 371-433): run
PixSfM in a subprocess when enabled and the scene is small enough (its
failure or an unreadable written model leaves the model absent), otherwise
run `reconstruction.main`; afterwards a present model is written to
`sfm_dir`. -/
def sfm_rebuild {Q : Type} (env : EngineEnv Q) (st : PipelineState Q)
    (fs : FS) : PipelineState Q × FS × List EngineCall :=
  let result :=
    if st.use_pixsfm && decide (st.img_list.length ≤ st.pixsfm_max_imgs) then
      env.pixsfm_result
    else env.reconstruction_result
  let call :=
    if st.use_pixsfm && decide (st.img_list.length ≤ st.pixsfm_max_imgs) then
      EngineCall.pixsfm_subprocess
    else EngineCall.reconstruction_main
  let st' := { st with sparse_model := result }
  let fs' :=
    match result with
    | some _ => fsWrite fs st.paths.sfm_dir env.model_file_out
    | none => fs
  (st', fs', [call])

/-- The `Pipeline.sfm` stage (`pipeline.py` lines 359-433).  With an
existing `sfm_dir` and `overwrite` unset, loading the persisted model
either succeeds and ends the stage, or raises `ValueError`, which is caught:
the model is set to absent and the stage falls through to the rebuild. -/
def sfm {Q : Type} (env : EngineEnv Q) (st : PipelineState Q)
    (fs : FS) : PipelineState Q × FS × List EngineCall :=
  if fsExists fs st.paths.sfm_dir && !st.overwrite then
    match env.load_result with
    | Except.ok m => ({ st with sparse_model := some m }, fs, [])
    | Except.error _ => sfm_rebuild env { st with sparse_model := none } fs
  else sfm_rebuild env st fs

/-- Dictionary lookup `self.rotation_angles[im.name]`; `none` is Python's
`KeyError`. -/
def dictLookup (d : List (String × ℕ)) (k : String) : Option ℕ :=
  (d.find? (fun e => e.1 == k)).map (fun e => e.2)

/-- The per-image loop of `back_rotate_cameras` (`pipeline.py` lines
305-315): look up each image's recorded angle (a missing entry raises
`KeyError`), leave angle-0 images unchanged, and otherwise replace the
translation by `rot_mat_z(angle) @ tvec` and the encoded rotation by
`rotmat2qvec(rot_mat_z(angle) @ im.rotmat())`. -/
def back_rotate_images {Q : Type} (enc : Mat3 → Q) (dec : Q → Mat3)
    (rotation_angles : List (String × ℕ)) :
    List (ℕ × CamImage Q) → Except String (List (ℕ × CamImage Q))
  | [] => Except.ok []
  | (i, im) :: rest =>
    match dictLookup rotation_angles im.name with
    | none => Except.error "KeyError"
    | some angle =>
      let im' :=
        if angle ≠ 0 then
          { im with
            tvec := (rot_mat_z angle).mulVec im.tvec,
            qvec := enc ((rot_mat_z angle).mul (dec im.qvec)) }
        else im
      match back_rotate_images enc dec rotation_angles rest with
      | Except.error e => Except.error e
      | Except.ok rest' => Except.ok ((i, im') :: rest')

/-- The `Pipeline.back_rotate_cameras` stage (`pipeline.py` lines 300-320):
a no-op unless the rotation wrapper is active; with it active, the stage
reads `self.sparse_model.images` (an absent model raises `AttributeError`
on `None`), back-rotates every registered camera, and finally swaps
`paths.image_dir` with `paths.rotated_image_dir`. -/
def back_rotate_cameras {Q : Type} (enc : Mat3 → Q) (dec : Q → Mat3)
    (st : PipelineState Q) : Except String (PipelineState Q) :=
  if !st.use_rotation_wrapper then Except.ok st
  else
    match st.sparse_model with
    | none => Except.error "AttributeError: NoneType has no attribute images"
    | some model =>
      match back_rotate_images enc dec st.rotation_angles model.images with
      | Except.error e => Except.error e
      | Except.ok imgs =>
        Except.ok
          { st with
            sparse_model := some ⟨imgs⟩,
            paths :=
              { st.paths with
                image_dir := st.paths.rotated_image_dir,
                rotated_image_dir := st.paths.image_dir } }

/-- Helper used in witness states: the identity encoding of a rotation
matrix as itself. -/
def idEnc : Mat3 → Mat3 := fun m => m

/-- Demo path layout shared by the concrete states below. -/
def demoPaths : DataPaths :=
  { image_dir := "images",
    rotated_image_dir := "images_rotated",
    pairs_path := "pairs.txt",
    features_retrieval := "features_retrieval.h5",
    sfm_dir := "sfm" }

/-- C8 (amended): provided a stage's cache guard is actually reached, an
existing on-disk output with the overwrite flag unset short-circuits the
stage: pair selection with at least `n_retrieval` images, an existing pairs
file and `overwrite = false` invokes no engine and leaves the file system
unchanged, and reconstruction with an existing, loadable `sfm_dir` and
`overwrite = false` only loads the persisted model, invoking no engine and
leaving the file system unchanged.  (With fewer than `n_retrieval` images,
pair selection recomputes unconditionally; see the counterexample.) -/
theorem stage_skip_when_output_exists {Q : Type} (env : EngineEnv Q)
    (st : PipelineState Q) (fs : FS) (m : SparseModel Q)
    (hn : st.n_retrieval ≤ st.img_list.length)
    (hp : fsExists fs st.paths.pairs_path = true)
    (ho : st.overwrite = false)
    (hs : fsExists fs st.paths.sfm_dir = true)
    (hl : env.load_result = Except.ok m) :
    get_pairs env st fs = (fs, []) ∧
    sfm env st fs = ({ st with sparse_model := some m }, fs, []) := by
  constructor
  · unfold get_pairs
    rw [if_neg (by omega), if_pos (by rw [hp, ho]; rfl)]
  · unfold sfm
    rw [if_pos (by rw [hs, ho]; rfl), hl]

/-- Concrete resumption state for the C8 witness: two images, retrieval
threshold two, existing pairs file and loadable persisted model. -/
def c8w_state : PipelineState Mat3 :=
  { paths := demoPaths,
    img_list := ["a.jpg", "b.jpg"],
    n_retrieval := 2,
    overwrite := false,
    use_rotation_matching := false,
    use_rotation_wrapper := false,
    use_pixsfm := false,
    pixsfm_max_imgs := 9999,
    sparse_model := none,
    rotation_angles := [("a.jpg", 0), ("b.jpg", 0)] }

/-- A one-camera sparse model used by the concrete states. -/
def c8w_model : SparseModel Mat3 :=
  ⟨[(1, { name := "a.jpg", tvec := ⟨1, 2, 3⟩, qvec := rot_mat_z 0 })]⟩

/-- Engine environment for the C8 witness: loading the persisted model
succeeds. -/
def c8w_env : EngineEnv Mat3 :=
  { exhaustive_pairs_out := 11,
    retrieval_features_out := 12,
    retrieval_pairs_out := 13,
    load_result := Except.ok c8w_model,
    pixsfm_result := none,
    reconstruction_result := none,
    model_file_out := 14 }

/-- File system for the C8 witness: pairs file and persisted model both
present. -/
def c8w_fs : FS := [("pairs.txt", 7), ("sfm", 9)]

/-- Witness for C8 (amended) at the concrete resumption state. -/
theorem stage_skip_when_output_exists_witness :
    get_pairs c8w_env c8w_state c8w_fs = (c8w_fs, []) ∧
    sfm c8w_env c8w_state c8w_fs =
      ({ c8w_state with sparse_model := some c8w_model }, c8w_fs, []) :=
  stage_skip_when_output_exists c8w_env c8w_state c8w_fs c8w_model
    (by decide) rfl rfl rfl rfl

/-- Below-threshold state for the C8 counterexample: a single image with
retrieval threshold two, an existing pairs file, overwrite unset. -/
def c8c_state : PipelineState Mat3 :=
  { c8w_state with img_list := ["a.jpg"] }

/-- C8 counterexample: with fewer images than `n_retrieval`, `get_pairs`
takes the exhaustive branch before the cache check, so even with an
existing pairs file and `overwrite = false` the pair-selection engine is
invoked and the pairs file is rewritten — the claim's universal skip
guarantee fails for the pair-selection stage. -/
theorem get_pairs_recomputes_below_threshold :
    fsExists c8w_fs c8c_state.paths.pairs_path = true ∧
    c8c_state.overwrite = false ∧
    get_pairs c8w_env c8c_state c8w_fs =
      (fsWrite c8w_fs c8c_state.paths.pairs_path c8w_env.exhaustive_pairs_out,
       [EngineCall.pairs_from_exhaustive]) ∧
    (get_pairs c8w_env c8c_state c8w_fs).2 ≠ [] ∧
    (get_pairs c8w_env c8c_state c8w_fs).1 ≠ c8w_fs := by
  refine ⟨rfl, rfl, rfl, by decide, by decide⟩

/-- C2 (amended): when loading the persisted model raises and the rebuild
also produces no model, the reconstruction stage catches the error (it
returns normally rather than propagating), leaves the sparse model absent
and the file system unchanged; with rotation-wrapper mode off, the
subsequent back-rotation stage on that state is a no-op that does not
raise, so the run proceeds to its timing report. -/
theorem sfm_corrupt_model_recovery {Q : Type} (enc : Mat3 → Q)
    (dec : Q → Mat3) (env : EngineEnv Q) (st : PipelineState Q) (fs : FS)
    (hs : fsExists fs st.paths.sfm_dir = true)
    (ho : st.overwrite = false)
    (hl : env.load_result = Except.error ())
    (hpx : env.pixsfm_result = none)
    (hrc : env.reconstruction_result = none)
    (hw : st.use_rotation_wrapper = false) :
    (sfm env st fs).1.sparse_model = none ∧
    (sfm env st fs).2.1 = fs ∧
    back_rotate_cameras enc dec (sfm env st fs).1 =
      Except.ok ((sfm env st fs).1) := by
  have hsfm : sfm env st fs = ({ st with sparse_model := none }, fs,
      [if st.use_pixsfm && decide (st.img_list.length ≤ st.pixsfm_max_imgs)
       then EngineCall.pixsfm_subprocess else EngineCall.reconstruction_main]) := by
    unfold sfm
    rw [if_pos (by rw [hs, ho]; rfl), hl]
    unfold sfm_rebuild
    rw [hpx, hrc, ite_self]
  refine ⟨by rw [hsfm], by rw [hsfm], ?_⟩
  rw [hsfm]
  unfold back_rotate_cameras
  rw [if_pos]
  show (!st.use_rotation_wrapper) = true
  rw [hw]
  rfl

/-- Wrapper-off corrupted-resume state for the C2 witness. -/
def c2w_state : PipelineState Mat3 :=
  { c8w_state with use_pixsfm := true }

/-- Engine environment with a corrupted persisted model (loading raises)
and a failing rebuild. -/
def c2_env : EngineEnv Mat3 :=
  { c8w_env with load_result := Except.error () }

/-- Witness for C2 (amended) at the concrete corrupted-resume state. -/
theorem sfm_corrupt_model_recovery_witness :
    (sfm c2_env c2w_state c8w_fs).1.sparse_model = none ∧
    (sfm c2_env c2w_state c8w_fs).2.1 = c8w_fs ∧
    back_rotate_cameras idEnc idEnc (sfm c2_env c2w_state c8w_fs).1 =
      Except.ok ((sfm c2_env c2w_state c8w_fs).1) :=
  sfm_corrupt_model_recovery idEnc idEnc c2_env c2w_state c8w_fs
    rfl rfl rfl rfl rfl rfl

/-- Wrapper-on corrupted-resume state for the C2 counterexample. -/
def c2c_state : PipelineState Mat3 :=
  { c2w_state with use_rotation_wrapper := true }

/-- C2 counterexample: after a corrupted persisted model (loading raises)
and a failing rebuild, the sparse model is absent — and with
rotation-wrapper mode active the subsequent back-rotation stage is not a
no-op: `back_rotate_cameras` dereferences the absent model and raises
instead of returning, contradicting the claim that it "is a no-op that
does not raise". -/
theorem back_rotate_raises_on_absent_model :
    (sfm c2_env c2c_state c8w_fs).1.sparse_model = none ∧
    back_rotate_cameras idEnc idEnc (sfm c2_env c2c_state c8w_fs).1 =
      Except.error "AttributeError: NoneType has no attribute images" := by
  exact ⟨rfl, rfl⟩

/-- The per-image transform applied by the back-rotation loop, as the claim
states it: angle 0 leaves the camera unchanged; a non-zero angle replaces
the translation by `rot_mat_z(angle) · tvec` and the encoded rotation by
the encoding of `rot_mat_z(angle) · rotmat`. -/
def backRotatedCam {Q : Type} (enc : Mat3 → Q) (dec : Q → Mat3)
    (angles : List (String × ℕ)) (e : ℕ × CamImage Q) : ℕ × CamImage Q :=
  match dictLookup angles e.2.name with
  | some angle =>
    if angle ≠ 0 then
      (e.1, { e.2 with
              tvec := (rot_mat_z angle).mulVec e.2.tvec,
              qvec := enc ((rot_mat_z angle).mul (dec e.2.qvec)) })
    else e
  | none => e

/-- When every image has a recorded angle, the back-rotation loop succeeds
and acts as the elementwise camera transform. -/
theorem back_rotate_images_ok {Q : Type} (enc : Mat3 → Q) (dec : Q → Mat3)
    (angles : List (String × ℕ)) (l : List (ℕ × CamImage Q))
    (h : ∀ e ∈ l, (dictLookup angles e.2.name).isSome = true) :
    back_rotate_images enc dec angles l =
      Except.ok (l.map (backRotatedCam enc dec angles)) := by
  induction l with
  | nil => rfl
  | cons hd tl ih =>
    obtain ⟨i, im⟩ := hd
    have hhd := h (i, im) (List.mem_cons_self _ _)
    cases hlk : dictLookup angles im.name with
    | none =>
      rw [hlk] at hhd
      simp at hhd
    | some angle =>
      have ih' := ih (fun e he => h e (List.mem_cons_of_mem _ he))
      unfold back_rotate_images
      rw [hlk, ih']
      simp only [List.map_cons]
      have hhead : backRotatedCam enc dec angles (i, im) =
          (i, if angle ≠ 0 then
                { im with
                  tvec := (rot_mat_z angle).mulVec im.tvec,
                  qvec := enc ((rot_mat_z angle).mul (dec im.qvec)) }
              else im) := by
        unfold backRotatedCam
        rw [hlk]
        by_cases hz : angle = 0
        · simp [hz]
        · simp [hz]
      rw [hhead]

/-- C9: in rotation-wrapper mode, with the sparse model present and every
registered image's angle recorded, the pose back-rotation stage succeeds
and replaces each camera with angle ≠ 0 by the camera whose translation is
`rot_mat_z(angle) · tvec` and whose orientation is
`rot_mat_z(angle) · rotmat` re-encoded in the pose representation (with
`rot_mat_z` modelled from the spec as `Rz(-angle)`); cameras with angle 0
are left unchanged, image ids, order and count are preserved, and no other
state changes except the image-directory swap — in particular no
re-optimization of any other field takes place. -/
theorem back_rotate_cameras_transforms_poses {Q : Type} (enc : Mat3 → Q)
    (dec : Q → Mat3) (st : PipelineState Q) (model : SparseModel Q)
    (hw : st.use_rotation_wrapper = true)
    (hm : st.sparse_model = some model)
    (ha : ∀ e ∈ model.images,
      (dictLookup st.rotation_angles e.2.name).isSome = true) :
    back_rotate_cameras enc dec st =
      Except.ok
        { st with
          sparse_model :=
            some ⟨model.images.map (backRotatedCam enc dec st.rotation_angles)⟩,
          paths :=
            { st.paths with
              image_dir := st.paths.rotated_image_dir,
              rotated_image_dir := st.paths.image_dir } } := by
  unfold back_rotate_cameras
  split
  · rename_i h0
    rw [hw] at h0
    simp at h0
  · split
    · rename_i hnone
      rw [hnone] at hm
      simp at hm
    · rename_i m₀ hsome
      rw [hsome] at hm
      injection hm with hmm
      subst hmm
      split
      · rename_i e hbr
        rw [back_rotate_images_ok enc dec st.rotation_angles m₀.images ha]
          at hbr
        simp at hbr
      · rename_i imgs hbr
        rw [back_rotate_images_ok enc dec st.rotation_angles m₀.images ha]
          at hbr
        injection hbr with h2
        subst h2
        rfl

/-- Rotation-wrapper state for the C9 witness: a two-camera model, one
camera rotated by 90 degrees and one unrotated. -/
def c9_model : SparseModel Mat3 :=
  ⟨[(1, { name := "a.jpg", tvec := ⟨1, 2, 3⟩, qvec := rot_mat_z 0 }),
    (2, { name := "b.jpg", tvec := ⟨4, 5, 6⟩, qvec := rot_mat_z 0 })]⟩

/-- Pipeline state for the C9 witness. -/
def c9_state : PipelineState Mat3 :=
  { c8w_state with
    use_rotation_wrapper := true,
    sparse_model := some c9_model,
    rotation_angles := [("a.jpg", 90), ("b.jpg", 0)] }

/-- Witness for C9 at the concrete two-camera state. -/
theorem back_rotate_cameras_transforms_poses_witness :
    back_rotate_cameras idEnc idEnc c9_state =
      Except.ok
        { c9_state with
          sparse_model :=
            some ⟨c9_model.images.map
              (backRotatedCam idEnc idEnc c9_state.rotation_angles)⟩,
          paths :=
            { c9_state.paths with
              image_dir := c9_state.paths.rotated_image_dir,
              rotated_image_dir := c9_state.paths.image_dir } } :=
  back_rotate_cameras_transforms_poses idEnc idEnc c9_state c9_model
    rfl rfl (by decide)

/-- C10: whenever the pose back-rotation stage completes in rotation-wrapper
mode, the state's image-directory and rotated-image-directory fields are
swapped with each other (so subsequent stages read from what was the
rotated-image directory); with rotation-wrapper mode off, the stage returns
the state entirely unchanged, in particular both path fields. -/
theorem back_rotate_cameras_dir_swap {Q : Type} (enc : Mat3 → Q)
    (dec : Q → Mat3) (st st' : PipelineState Q)
    (h : back_rotate_cameras enc dec st = Except.ok st') :
    (st.use_rotation_wrapper = true →
      st'.paths.image_dir = st.paths.rotated_image_dir ∧
      st'.paths.rotated_image_dir = st.paths.image_dir) ∧
    (st.use_rotation_wrapper = false → st' = st) := by
  unfold back_rotate_cameras at h
  split at h
  · rename_i hcond
    simp only [Except.ok.injEq] at h
    constructor
    · intro hw
      rw [hw] at hcond
      simp at hcond
    · intro hw
      exact h.symm
  · rename_i hcond
    have hwt : st.use_rotation_wrapper = true := by
      cases hb : st.use_rotation_wrapper
      · rw [hb] at hcond
        simp at hcond
      · rfl
    constructor
    · intro hw
      split at h
      · simp at h
      · split at h
        · simp at h
        · simp only [Except.ok.injEq] at h
          subst h
          exact ⟨rfl, rfl⟩
    · intro hw
      rw [hwt] at hw
      simp at hw

/-- The state the back-rotation stage produces from `c9_state`: the
90-degree camera back-rotated and the two image directories swapped. -/
def c9_result : PipelineState Mat3 :=
  { c9_state with
    sparse_model :=
      some ⟨[(1, { name := "a.jpg", tvec := ⟨2, -1, 3⟩,
                   qvec := ⟨⟨0, 1, 0⟩, ⟨-1, 0, 0⟩, ⟨0, 0, 1⟩⟩ }),
             (2, { name := "b.jpg", tvec := ⟨4, 5, 6⟩,
                   qvec := rot_mat_z 0 })]⟩,
    paths :=
      { demoPaths with
        image_dir := "images_rotated",
        rotated_image_dir := "images" } }

unseal Rat.add Rat.mul Rat.sub in
/-- Witness for C10 at the concrete wrapper-on state of the C9 witness. -/
theorem back_rotate_cameras_dir_swap_witness :
    c9_result.paths.image_dir = c9_state.paths.rotated_image_dir ∧
    c9_result.paths.rotated_image_dir = c9_state.paths.image_dir :=
  (back_rotate_cameras_dir_swap idEnc idEnc c9_state c9_result (by rfl)).1 rfl

/-! ### Crop augmentation

Embeds the per-pair loop of `Pipeline.perform_cropping` (`pipeline.py`
lines 195-298) and the standalone `crop_matching` (`cropping.py`).  A pair
brings its keypoints (already cast to integers via `astype(np.int32)`),
its match index pairs with parallel scores, and the pixel dimensions of
the two original images; `numpy` crops are three-channel for both the crop
and the original, so the `.size` ratio equals the pixel-area ratio. -/

/-- Ascending insertion into a sorted list of scores. -/
def insertSorted (a : ℚ) : List ℚ → List ℚ
  | [] => [a]
  | b :: bs => if a ≤ b then a :: b :: bs else b :: insertSorted a bs

/-- Ascending sort of the scores, as `np.quantile` sorts internally. -/
def sortScores (l : List ℚ) : List ℚ := l.foldr insertSorted []

/-- Floor of a rational (the denominator is positive by the `Rat`
invariant). -/
def ratFloorInt (a : ℚ) : ℤ := a.num.fdiv (a.den : ℤ)

/-- Ceiling of a rational. -/
def ratCeilInt (a : ℚ) : ℤ := -((-a.num).fdiv (a.den : ℤ))

/-- `np.quantile(scores, 0.2)` with the default linear interpolation: with
the scores sorted ascending and `h = 0.2 * (n - 1)`, the result is
`sorted[floor h] + (h - floor h) * (sorted[ceil h] - sorted[floor h])`;
exact rational arithmetic stands in for the float arithmetic of the
source. -/
def quantile20 (scores : List ℚ) : ℚ :=
  let sorted := sortScores scores
  let n := sorted.length
  let h : ℚ := Rat.divInt ((n : ℤ) - 1) 5
  let lo := (ratFloorInt h).toNat
  let hi := (ratCeilInt h).toNat
  sorted.getD lo 0 +
    (h - Rat.divInt (ratFloorInt h) 1) *
      (sorted.getD hi 0 - sorted.getD lo 0)

/-- The mask-and-select `matches[scores >= threshold]` with
`threshold = np.quantile(scores, 0.2)` (`pipeline.py` lines 224-226):
match rows are kept in order, paired positionally with their scores. -/
def top_matches (matchesList : List (ℕ × ℕ)) (scores : List ℚ) :
    List (ℕ × ℕ) :=
  let threshold := quantile20 scores
  ((matchesList.zip scores).filter (fun ms => threshold ≤ ms.2)).map
    (fun ms => ms.1)

/-- Fancy indexing `kp[idxs]` over the keypoint array. -/
def gather (kps : List Keypoint) (idxs : List ℕ) : List Keypoint :=
  idxs.map (fun i => kps.getD i (0, 0))

/-- Minimum of a list of integers (`np.min` over a nonempty axis); the
empty case never arises in guarded uses. -/
def listMin : List ℤ → ℤ
  | [] => 0
  | x :: xs => xs.foldl min x

/-- Maximum of a list of integers. -/
def listMax : List ℤ → ℤ
  | [] => 0
  | x :: xs => xs.foldl max x

/-- An axis-aligned bounding box with inclusive bounds. -/
structure Bbox where
  xmin : ℤ
  xmax : ℤ
  ymin : ℤ
  ymax : ℤ
deriving DecidableEq, Repr

/-- Bounding box of a keypoint list: min/max along each axis. -/
def kpBbox (kps : List Keypoint) : Bbox :=
  { xmin := listMin (kps.map (fun p => p.1)),
    xmax := listMax (kps.map (fun p => p.1)),
    ymin := listMin (kps.map (fun p => p.2)),
    ymax := listMax (kps.map (fun p => p.2)) }

/-- Number of pixel columns of the crop `img[ymin:ymax+1, xmin:xmax+1]`. -/
def Bbox.width (b : Bbox) : ℤ := b.xmax + 1 - b.xmin

/-- Number of pixel rows of the crop. -/
def Bbox.height (b : Bbox) : ℤ := b.ymax + 1 - b.ymin

/-- Relative size `cropped_image.size / original_image.size` of a crop of
an original image of width `W` and height `H`: the channel counts cancel,
leaving the exact pixel-area ratio. -/
def rel_crop_size (b : Bbox) (W H : ℤ) : ℚ :=
  Rat.divInt (b.height * b.width) (H * W)

/-- Everything the crop loop reads for one original pair: the image names,
the two integer keypoint arrays, the match rows (source name `matches`,
which is reserved in Lean) with parallel scores, and the two original
images' pixel dimensions. -/
structure PairData where
  img_1 : String
  img_2 : String
  kp_1 : List Keypoint
  kp_2 : List Keypoint
  matchesList : List (ℕ × ℕ)
  scores : List ℚ
  W1 : ℤ
  H1 : ℤ
  W2 : ℤ
  H2 : ℤ
deriving DecidableEq, Repr

/-- The retained top-80% match rows of a pair. -/
def pair_top (d : PairData) : List (ℕ × ℕ) :=
  top_matches d.matchesList d.scores

/-- `kp_1[top_matches[:,0]]` (`pipeline.py` line 229). -/
def pair_top_kp_1 (d : PairData) : List Keypoint :=
  gather d.kp_1 ((pair_top d).map (fun m => m.1))

/-- `kp_2[top_matches[:,1]]` (`pipeline.py` line 230). -/
def pair_top_kp_2 (d : PairData) : List Keypoint :=
  gather d.kp_2 ((pair_top d).map (fun m => m.2))

/-- Bounding box of the first image's retained keypoints. -/
def pair_bbox_1 (d : PairData) : Bbox := kpBbox (pair_top_kp_1 d)

/-- Bounding box of the second image's retained keypoints. -/
def pair_bbox_2 (d : PairData) : Bbox := kpBbox (pair_top_kp_2 d)

/-- `rel_size_1 = cropped_image_1.size / original_image_1.size`
(`pipeline.py` line 243). -/
def pair_rel_size_1 (d : PairData) : ℚ :=
  rel_crop_size (pair_bbox_1 d) d.W1 d.H1

/-- `rel_size_2` (`pipeline.py` line 244). -/
def pair_rel_size_2 (d : PairData) : ℚ :=
  rel_crop_size (pair_bbox_2 d) d.W2 d.H2

/-- Crop file names used by `Pipeline.perform_cropping` (lines 257-258):
the pair-qualified names with the 4-character extensions stripped. -/
def pipelineCropNames (img_1 img_2 : String) : String × String :=
  (img_1.dropRight 4 ++ "_" ++ img_2.dropRight 4 ++ "_1.jpg",
   img_1.dropRight 4 ++ "_" ++ img_2.dropRight 4 ++ "_2.jpg")

/-- Crop file names used by `crop_matching` (`cropping.py` lines 68-69):
the full image names are concatenated without stripping extensions. -/
def croppingCropNames (img_1 img_2 : String) : String × String :=
  (img_1 ++ "_" ++ img_2 ++ "_1.jpg", img_1 ++ "_" ++ img_2 ++ "_2.jpg")

/-- The result recorded for one accepted pair: crop names, bounding boxes
(the crop image contents), relative sizes, and the offset vectors stored in
the `offsets` dictionary. -/
structure CropRecord where
  name_1 : String
  name_2 : String
  bbox_1 : Bbox
  bbox_2 : Bbox
  rel_size_1 : ℚ
  rel_size_2 : ℚ
  offset_1 : ℤ × ℤ
  offset_2 : ℤ × ℤ
deriving DecidableEq, Repr

/-- One iteration of the crop loop (`pipeline.py` lines 212-267): skip the
pair with fewer than 100 matches; otherwise compute both crops and their
relative sizes; skip if `rel_size_1 <= min_rel_crop_size or rel_size_2 <
min_rel_crop_size` (note the asymmetric strict comparison on the second
crop in the source) or if both relative sizes are `>= max_rel_crop_size`;
otherwise accept, recording both crops and the offsets
`(top_kp[:,0].min(), top_kp[:,1].min())`. -/
def process_pair (nameFn : String → String → String × String)
    (min_rel_crop_size max_rel_crop_size : ℚ) (d : PairData) :
    Option CropRecord :=
  if d.matchesList.length < 100 then none
  else if pair_rel_size_1 d ≤ min_rel_crop_size ∨
          pair_rel_size_2 d < min_rel_crop_size then none
  else if pair_rel_size_1 d ≥ max_rel_crop_size ∧
          pair_rel_size_2 d ≥ max_rel_crop_size then none
  else
    some
      { name_1 := (nameFn d.img_1 d.img_2).1,
        name_2 := (nameFn d.img_1 d.img_2).2,
        bbox_1 := pair_bbox_1 d,
        bbox_2 := pair_bbox_2 d,
        rel_size_1 := pair_rel_size_1 d,
        rel_size_2 := pair_rel_size_2 d,
        offset_1 := ((pair_bbox_1 d).xmin, (pair_bbox_1 d).ymin),
        offset_2 := ((pair_bbox_2 d).xmin, (pair_bbox_2 d).ymin) }

/-- Accumulated side effects of the crop loop: the crop image files written
via `cv2.imwrite`, the `crop_pairs` list, and the `offsets` dictionary in
insertion order. -/
structure CropLoopState where
  crop_pairs : List (String × String)
  offsets : List (String × (ℤ × ℤ))
  written : List (String × Bbox)
deriving DecidableEq, Repr

/-- The state before the crop loop starts. -/
def emptyCropState : CropLoopState := ⟨[], [], []⟩

/-- State effect of one crop-loop iteration: a skipped pair changes
nothing; an accepted pair appends its crop pair, offsets and written
files. -/
def process_pair_step (nameFn : String → String → String × String)
    (min_rel_crop_size max_rel_crop_size : ℚ) (d : PairData)
    (s : CropLoopState) : CropLoopState :=
  match process_pair nameFn min_rel_crop_size max_rel_crop_size d with
  | none => s
  | some r =>
    { crop_pairs := s.crop_pairs ++ [(r.name_1, r.name_2)],
      offsets := s.offsets ++ [(r.name_1, r.offset_1), (r.name_2, r.offset_2)],
      written := s.written ++ [(r.name_1, r.bbox_1), (r.name_2, r.bbox_2)] }

/-- One call of the crop stage into the extraction/matching engines. -/
inductive CropCall where
  | extract_main (crop_images : List String)
  | match_main (crop_pairs : List (String × String))
deriving DecidableEq, Repr

/-- Recognizer for feature-extraction calls in a crop-stage trace. -/
def isExtractCall : CropCall → Bool
  | .extract_main _ => true
  | .match_main _ => false

/-- The `Pipeline.perform_cropping` stage (`pipeline.py` lines 195-298):
a no-op when cropping is disabled; otherwise the per-pair loop runs to
completion, and only then — once, outside the loop — feature extraction
runs over the crop image directory and matching runs over the derived
crop-pair list (lines 274-285). -/
def perform_cropping (use_cropping : Bool)
    (min_rel_crop_size max_rel_crop_size : ℚ) (pairsData : List PairData) :
    CropLoopState × List CropCall :=
  if !use_cropping then (emptyCropState, [])
  else
    let s := pairsData.foldl
      (fun s d =>
        process_pair_step pipelineCropNames min_rel_crop_size
          max_rel_crop_size d s)
      emptyCropState
    (s, [CropCall.extract_main (s.written.map (fun w => w.1)),
         CropCall.match_main s.crop_pairs])

/-- The standalone `crop_matching` (`cropping.py` lines 12-104): the
extraction/matching block (lines 80-96) is indented inside the per-pair
loop, so it executes once for every accepted pair, over the crops and
crop pairs accumulated so far. -/
def crop_matching (min_rel_crop_size max_rel_crop_size : ℚ)
    (pairsData : List PairData) : CropLoopState × List CropCall :=
  pairsData.foldl
    (fun acc d =>
      match process_pair croppingCropNames min_rel_crop_size
          max_rel_crop_size d with
      | none => acc
      | some r =>
        let s :=
          { crop_pairs := acc.1.crop_pairs ++ [(r.name_1, r.name_2)],
            offsets := acc.1.offsets ++
              [(r.name_1, r.offset_1), (r.name_2, r.offset_2)],
            written := acc.1.written ++
              [(r.name_1, r.bbox_1), (r.name_2, r.bbox_2)] }
        (s, acc.2 ++ [CropCall.extract_main (s.written.map (fun w => w.1)),
                      CropCall.match_main s.crop_pairs]))
    (emptyCropState, [])

/-- A left fold with `min` never exceeds its initial value. -/
theorem foldl_min_le_init (xs : List ℤ) (a : ℤ) : xs.foldl min a ≤ a := by
  induction xs generalizing a with
  | nil => exact le_refl a
  | cons x xs ih => exact le_trans (ih (min a x)) (min_le_left a x)

/-- A lower bound of the initial value and all elements bounds the fold. -/
theorem foldl_min_ge (xs : List ℤ) (a c : ℤ) (ha : c ≤ a)
    (h : ∀ x ∈ xs, c ≤ x) : c ≤ xs.foldl min a := by
  induction xs generalizing a with
  | nil => exact ha
  | cons x xs ih =>
    exact ih (min a x) (le_min ha (h x (List.mem_cons_self _ _)))
      (fun y hy => h y (List.mem_cons_of_mem _ hy))

/-- A left fold with `max` is at least its initial value. -/
theorem init_le_foldl_max (xs : List ℤ) (a : ℤ) : a ≤ xs.foldl max a := by
  induction xs generalizing a with
  | nil => exact le_refl a
  | cons x xs ih => exact le_trans (le_max_left a x) (ih (max a x))

/-- An upper bound of the initial value and all elements bounds the fold. -/
theorem foldl_max_le (xs : List ℤ) (a c : ℤ) (ha : a ≤ c)
    (h : ∀ x ∈ xs, x ≤ c) : xs.foldl max a ≤ c := by
  induction xs generalizing a with
  | nil => exact ha
  | cons x xs ih =>
    exact ih (max a x) (max_le ha (h x (List.mem_cons_self _ _)))
      (fun y hy => h y (List.mem_cons_of_mem _ hy))

/-- Bounds on `listMin`/`listMax` of a nonempty list of bounded integers. -/
theorem listMinMax_bounds (l : List ℤ) (c b : ℤ) (hne : l ≠ [])
    (h : ∀ x ∈ l, c ≤ x ∧ x ≤ b) :
    c ≤ listMin l ∧ listMin l ≤ listMax l ∧ listMax l ≤ b := by
  cases l with
  | nil => exact absurd rfl hne
  | cons x xs =>
    exact ⟨foldl_min_ge xs x c (h x (List.mem_cons_self _ _)).1
        (fun y hy => (h y (List.mem_cons_of_mem _ hy)).1),
      le_trans (foldl_min_le_init xs x) (init_le_foldl_max xs x),
      foldl_max_le xs x b (h x (List.mem_cons_self _ _)).2
        (fun y hy => (h y (List.mem_cons_of_mem _ hy)).2)⟩

/-- Every keypoint produced by fancy indexing lies within the image bounds,
because in-range indices return stored keypoints and out-of-range indices
return the zero default, which is in bounds for a nonempty image. -/
theorem gather_bounds (kps : List Keypoint) (W H : ℤ)
    (hW : 0 < W) (hH : 0 < H)
    (hkp : ∀ p ∈ kps, 0 ≤ p.1 ∧ p.1 < W ∧ 0 ≤ p.2 ∧ p.2 < H)
    (idxs : List ℕ) :
    ∀ q ∈ gather kps idxs, 0 ≤ q.1 ∧ q.1 < W ∧ 0 ≤ q.2 ∧ q.2 < H := by
  intro q hq
  unfold gather at hq
  obtain ⟨i, hi, rfl⟩ := List.mem_map.mp hq
  by_cases hlt : i < kps.length
  · have hmem : kps.getD i (0, 0) ∈ kps := by
      rw [List.getD_eq_get kps (0, 0) hlt]
      exact List.get_mem kps i hlt
    exact hkp _ hmem
  · rw [List.getD_eq_default kps (0, 0) (by omega)]
    exact ⟨le_refl 0, hW, le_refl 0, hH⟩

/-- The bounding box of a nonempty in-bounds keypoint list lies within the
image bounds, with ordered min/max corners. -/
theorem kpBbox_bounds (kps : List Keypoint) (W H : ℤ) (hne : kps ≠ [])
    (h : ∀ p ∈ kps, 0 ≤ p.1 ∧ p.1 < W ∧ 0 ≤ p.2 ∧ p.2 < H) :
    (0 ≤ (kpBbox kps).xmin ∧ (kpBbox kps).xmin ≤ (kpBbox kps).xmax ∧
      (kpBbox kps).xmax < W) ∧
    (0 ≤ (kpBbox kps).ymin ∧ (kpBbox kps).ymin ≤ (kpBbox kps).ymax ∧
      (kpBbox kps).ymax < H) := by
  have hxne : kps.map (fun p => p.1) ≠ [] := by
    simp only [ne_eq, List.map_eq_nil]
    exact hne
  have hyne : kps.map (fun p => p.2) ≠ [] := by
    simp only [ne_eq, List.map_eq_nil]
    exact hne
  have hx := listMinMax_bounds (kps.map (fun p => p.1)) 0 (W - 1) hxne (by
    intro x hx
    obtain ⟨p, hp, rfl⟩ := List.mem_map.mp hx
    have := h p hp
    omega)
  have hy := listMinMax_bounds (kps.map (fun p => p.2)) 0 (H - 1) hyne (by
    intro y hy
    obtain ⟨p, hp, rfl⟩ := List.mem_map.mp hy
    have := h p hp
    omega)
  refine ⟨⟨hx.1, hx.2.1, ?_⟩, ⟨hy.1, hy.2.1, ?_⟩⟩
  · show listMax (kps.map (fun p => p.1)) < W
    have := hx.2.2
    omega
  · show listMax (kps.map (fun p => p.2)) < H
    have := hy.2.2
    omega

/-- A bounding box with ordered corners inside a positive-area image yields
a relative crop size strictly above 0 and at most 1. -/
theorem rel_crop_size_bounds (b : Bbox) (W H : ℤ)
    (hx0 : 0 ≤ b.xmin) (hxx : b.xmin ≤ b.xmax) (hxW : b.xmax < W)
    (hy0 : 0 ≤ b.ymin) (hyy : b.ymin ≤ b.ymax) (hyH : b.ymax < H) :
    0 < rel_crop_size b W H ∧ rel_crop_size b W H ≤ 1 := by
  have hh : 0 < b.height := by unfold Bbox.height; omega
  have hw : 0 < b.width := by unfold Bbox.width; omega
  have hhH : b.height ≤ H := by unfold Bbox.height; omega
  have hwW : b.width ≤ W := by unfold Bbox.width; omega
  have hH : (0 : ℤ) < H := by omega
  have hW : (0 : ℤ) < W := by omega
  have hnum : 0 < b.height * b.width := mul_pos hh hw
  have hden : 0 < H * W := mul_pos hH hW
  have hle : b.height * b.width ≤ H * W :=
    mul_le_mul hhH hwW (le_of_lt hw) (le_of_lt hH)
  unfold rel_crop_size
  rw [Rat.divInt_eq_div]
  constructor
  · apply div_pos
    · exact_mod_cast hnum
    · exact_mod_cast hden
  · rw [div_le_one (by exact_mod_cast hden)]
    exact_mod_cast hle

/-- C5 (amended): for every pair that reaches the relative-size check (at
least 100 matches and a nonempty retained-match set), the crop loop skips
the pair — silently, total, writing no crop files, offsets or crop pairs —
exactly when `rel_size_1 ≤ min_rel_crop_size` or
`rel_size_2 < min_rel_crop_size` (strict on the second crop, as in the
source) or both relative sizes are `≥ max_rel_crop_size`; in every other
case the pair is accepted and both crops, both offsets and the crop pair
are appended to the loop state. -/
theorem crop_relative_size_gate (nameFn : String → String → String × String)
    (minr maxr : ℚ) (d : PairData) (s : CropLoopState)
    (h100 : 100 ≤ d.matchesList.length)
    (htop : pair_top d ≠ []) :
    (process_pair nameFn minr maxr d = none ↔
      (pair_rel_size_1 d ≤ minr ∨ pair_rel_size_2 d < minr) ∨
      (pair_rel_size_1 d ≥ maxr ∧ pair_rel_size_2 d ≥ maxr)) ∧
    (process_pair nameFn minr maxr d = none →
      process_pair_step nameFn minr maxr d s = s) ∧
    (∀ r : CropRecord, process_pair nameFn minr maxr d = some r →
      process_pair_step nameFn minr maxr d s =
        { crop_pairs := s.crop_pairs ++ [(r.name_1, r.name_2)],
          offsets := s.offsets ++
            [(r.name_1, r.offset_1), (r.name_2, r.offset_2)],
          written := s.written ++
            [(r.name_1, r.bbox_1), (r.name_2, r.bbox_2)] }) := by
  refine ⟨?_, ?_, ?_⟩
  · unfold process_pair
    rw [if_neg (by omega)]
    by_cases h1 : pair_rel_size_1 d ≤ minr ∨ pair_rel_size_2 d < minr
    · rw [if_pos h1]
      simp [h1]
    · rw [if_neg h1]
      by_cases h2 : pair_rel_size_1 d ≥ maxr ∧ pair_rel_size_2 d ≥ maxr
      · rw [if_pos h2]
        simp [h1, h2]
      · rw [if_neg h2]
        simp [h1, h2]
  · intro hnone
    unfold process_pair_step
    rw [hnone]
  · intro r hr
    unfold process_pair_step
    rw [hr]

/-- C6: every accepted crop has a relative size strictly above 0 and at
most 1 for both images, a bounding box (min/max of the retained matches'
integer keypoint coordinates, inclusive upper bound) lying within the
original image bounds, and a recorded offset vector exactly equal to the
bounding box's top-left corner `(min-x, min-y)` — assuming the keypoint
stores hold in-bounds coordinates of nonempty images and the pair retains
at least one match. -/
theorem crop_accept_properties (nameFn : String → String → String × String)
    (minr maxr : ℚ) (d : PairData) (r : CropRecord)
    (hW1 : 0 < d.W1) (hH1 : 0 < d.H1) (hW2 : 0 < d.W2) (hH2 : 0 < d.H2)
    (hkp1 : ∀ p ∈ d.kp_1, 0 ≤ p.1 ∧ p.1 < d.W1 ∧ 0 ≤ p.2 ∧ p.2 < d.H1)
    (hkp2 : ∀ p ∈ d.kp_2, 0 ≤ p.1 ∧ p.1 < d.W2 ∧ 0 ≤ p.2 ∧ p.2 < d.H2)
    (htop : pair_top d ≠ [])
    (hacc : process_pair nameFn minr maxr d = some r) :
    (0 < r.rel_size_1 ∧ r.rel_size_1 ≤ 1) ∧
    (0 < r.rel_size_2 ∧ r.rel_size_2 ≤ 1) ∧
    (0 ≤ r.bbox_1.xmin ∧ r.bbox_1.xmin ≤ r.bbox_1.xmax ∧
      r.bbox_1.xmax < d.W1 ∧ 0 ≤ r.bbox_1.ymin ∧
      r.bbox_1.ymin ≤ r.bbox_1.ymax ∧ r.bbox_1.ymax < d.H1) ∧
    (0 ≤ r.bbox_2.xmin ∧ r.bbox_2.xmin ≤ r.bbox_2.xmax ∧
      r.bbox_2.xmax < d.W2 ∧ 0 ≤ r.bbox_2.ymin ∧
      r.bbox_2.ymin ≤ r.bbox_2.ymax ∧ r.bbox_2.ymax < d.H2) ∧
    r.offset_1 = (r.bbox_1.xmin, r.bbox_1.ymin) ∧
    r.offset_2 = (r.bbox_2.xmin, r.bbox_2.ymin) := by
  have htop1 : pair_top_kp_1 d ≠ [] := by
    unfold pair_top_kp_1 gather
    simp only [ne_eq, List.map_eq_nil]
    exact htop
  have htop2 : pair_top_kp_2 d ≠ [] := by
    unfold pair_top_kp_2 gather
    simp only [ne_eq, List.map_eq_nil]
    exact htop
  have hb1 := kpBbox_bounds (pair_top_kp_1 d) d.W1 d.H1 htop1
    (gather_bounds d.kp_1 d.W1 d.H1 hW1 hH1 hkp1 _)
  have hb2 := kpBbox_bounds (pair_top_kp_2 d) d.W2 d.H2 htop2
    (gather_bounds d.kp_2 d.W2 d.H2 hW2 hH2 hkp2 _)
  have hrel1 := rel_crop_size_bounds (pair_bbox_1 d) d.W1 d.H1
    hb1.1.1 hb1.1.2.1 hb1.1.2.2 hb1.2.1 hb1.2.2.1 hb1.2.2.2
  have hrel2 := rel_crop_size_bounds (pair_bbox_2 d) d.W2 d.H2
    hb2.1.1 hb2.1.2.1 hb2.1.2.2 hb2.2.1 hb2.2.2.1 hb2.2.2.2
  unfold process_pair at hacc
  split_ifs at hacc with hc1 hc2 hc3
  simp only [Option.some.injEq] at hacc
  subst hacc
  exact ⟨⟨hrel1.1, hrel1.2⟩, ⟨hrel2.1, hrel2.2⟩,
    ⟨hb1.1.1, hb1.1.2.1, hb1.1.2.2, hb1.2.1, hb1.2.2.1, hb1.2.2.2⟩,
    ⟨hb2.1.1, hb2.1.2.1, hb2.1.2.2, hb2.2.1, hb2.2.2.1, hb2.2.2.2⟩,
    rfl, rfl⟩

/-- Concrete pair reaching the relative-size check: 100 matches of uniform
score, so the 20th-percentile threshold retains all of them; the first
crop covers 80 of 100 pixels, the second exactly half. -/
def demoPairData : PairData :=
  { img_1 := "a.jpg", img_2 := "b.jpg",
    kp_1 := [(0, 0), (9, 7)], kp_2 := [(0, 0), (9, 4)],
    matchesList := List.replicate 50 (0, 0) ++ List.replicate 50 (1, 1),
    scores := List.replicate 100 1,
    W1 := 10, H1 := 10, W2 := 10, H2 := 10 }

unseal Rat.add Rat.mul Rat.sub in
/-- Witness for C5 (amended) at the concrete 100-match pair. -/
theorem crop_relative_size_gate_witness :
    100 ≤ demoPairData.matchesList.length ∧
    pair_top demoPairData ≠ [] ∧
    (process_pair pipelineCropNames (Rat.divInt 1 2) (Rat.divInt 9 10)
        demoPairData = none ↔
      (pair_rel_size_1 demoPairData ≤ Rat.divInt 1 2 ∨
       pair_rel_size_2 demoPairData < Rat.divInt 1 2) ∨
      (pair_rel_size_1 demoPairData ≥ Rat.divInt 9 10 ∧
       pair_rel_size_2 demoPairData ≥ Rat.divInt 9 10)) :=
  ⟨by decide, by decide,
   (crop_relative_size_gate pipelineCropNames (Rat.divInt 1 2)
     (Rat.divInt 9 10) demoPairData emptyCropState (by decide) (by decide)).1⟩

/-- Modelled from the spec (section 4.2 step 5): reject the pair "if either
relative size ≤ min_rel_crop_size ... or if *both* relative sizes ≥
max_rel_crop_size" — a symmetric non-strict minimum comparison on both
crops, unlike the source's strict comparison on the second crop. -/
abbrev crop_skip_spec (min_rel_crop_size max_rel_crop_size rel1 rel2 : ℚ) :
    Prop :=
  (rel1 ≤ min_rel_crop_size ∨ rel2 ≤ min_rel_crop_size) ∨
  (rel1 ≥ max_rel_crop_size ∧ rel2 ≥ max_rel_crop_size)

unseal Rat.add Rat.mul Rat.sub in
/-- C5 counterexample: a pair whose second relative crop size equals
`min_rel_crop_size` exactly (1/2).  The claim (and the spec) say the pair
is skipped because `rel_size_2 ≤ min_rel_crop_size`; the source's strict
`rel_size_2 < min_rel_crop_size` accepts it, persists both crops and
records offsets, so the claimed "exactly when" equivalence fails. -/
theorem crop_gate_differs_from_spec :
    crop_skip_spec (Rat.divInt 1 2) (Rat.divInt 9 10)
      (pair_rel_size_1 demoPairData) (pair_rel_size_2 demoPairData) ∧
    pair_rel_size_2 demoPairData = Rat.divInt 1 2 ∧
    100 ≤ demoPairData.matchesList.length ∧
    pair_top demoPairData ≠ [] ∧
    process_pair pipelineCropNames (Rat.divInt 1 2) (Rat.divInt 9 10)
      demoPairData ≠ none ∧
    process_pair_step pipelineCropNames (Rat.divInt 1 2) (Rat.divInt 9 10)
      demoPairData emptyCropState ≠ emptyCropState :=
  ⟨by decide, by decide, by decide, by decide, by decide, by decide⟩

/-- Concrete accepted pair with non-trivial offsets for the C6 witness. -/
def c6PairData : PairData :=
  { img_1 := "a.jpg", img_2 := "b.jpg",
    kp_1 := [(2, 3), (9, 7)], kp_2 := [(1, 0), (9, 4)],
    matchesList := List.replicate 50 (0, 0) ++ List.replicate 50 (1, 1),
    scores := List.replicate 100 1,
    W1 := 10, H1 := 10, W2 := 10, H2 := 10 }

/-- The crop record the source computes for `c6PairData`. -/
def c6CropRecord : CropRecord :=
  { name_1 := "a_b_1.jpg", name_2 := "a_b_2.jpg",
    bbox_1 := ⟨2, 9, 3, 7⟩, bbox_2 := ⟨1, 9, 0, 4⟩,
    rel_size_1 := Rat.divInt 2 5, rel_size_2 := Rat.divInt 9 20,
    offset_1 := (2, 3), offset_2 := (1, 0) }

unseal Rat.add Rat.mul Rat.sub in
/-- Witness for C6 at the concrete accepted pair. -/
theorem crop_accept_properties_witness :
    process_pair pipelineCropNames (Rat.divInt 1 5) (Rat.divInt 9 10)
      c6PairData = some c6CropRecord ∧
    ((0 < c6CropRecord.rel_size_1 ∧ c6CropRecord.rel_size_1 ≤ 1) ∧
     (0 < c6CropRecord.rel_size_2 ∧ c6CropRecord.rel_size_2 ≤ 1) ∧
     (0 ≤ c6CropRecord.bbox_1.xmin ∧
       c6CropRecord.bbox_1.xmin ≤ c6CropRecord.bbox_1.xmax ∧
       c6CropRecord.bbox_1.xmax < c6PairData.W1 ∧
       0 ≤ c6CropRecord.bbox_1.ymin ∧
       c6CropRecord.bbox_1.ymin ≤ c6CropRecord.bbox_1.ymax ∧
       c6CropRecord.bbox_1.ymax < c6PairData.H1) ∧
     (0 ≤ c6CropRecord.bbox_2.xmin ∧
       c6CropRecord.bbox_2.xmin ≤ c6CropRecord.bbox_2.xmax ∧
       c6CropRecord.bbox_2.xmax < c6PairData.W2 ∧
       0 ≤ c6CropRecord.bbox_2.ymin ∧
       c6CropRecord.bbox_2.ymin ≤ c6CropRecord.bbox_2.ymax ∧
       c6CropRecord.bbox_2.ymax < c6PairData.H2) ∧
     c6CropRecord.offset_1 =
       (c6CropRecord.bbox_1.xmin, c6CropRecord.bbox_1.ymin) ∧
     c6CropRecord.offset_2 =
       (c6CropRecord.bbox_2.xmin, c6CropRecord.bbox_2.ymin)) :=
  ⟨by decide,
   crop_accept_properties pipelineCropNames (Rat.divInt 1 5) (Rat.divInt 9 10)
     c6PairData c6CropRecord (by decide) (by decide) (by decide) (by decide)
     (by decide) (by decide) (by decide) (by decide)⟩

/-- C7 (amended): in the crop stage the orchestrator actually runs
(`Pipeline.perform_cropping`), feature extraction and matching on the
generated crops are invoked exactly once each, after the whole per-pair
fold, over the full batch of written crop images and the complete derived
crop-pair list; the standalone `crop_matching` helper instead re-invokes
them per accepted pair (see the counterexample). -/
theorem perform_cropping_batched (minr maxr : ℚ) (ds : List PairData) :
    perform_cropping true minr maxr ds =
      (ds.foldl
        (fun s d => process_pair_step pipelineCropNames minr maxr d s)
        emptyCropState,
       [CropCall.extract_main
          ((ds.foldl
            (fun s d => process_pair_step pipelineCropNames minr maxr d s)
            emptyCropState).written.map (fun w => w.1)),
        CropCall.match_main
          (ds.foldl
            (fun s d => process_pair_step pipelineCropNames minr maxr d s)
            emptyCropState).crop_pairs]) ∧
    ((perform_cropping true minr maxr ds).2.filter isExtractCall).length = 1 ∧
    ((perform_cropping true minr maxr ds).2.filter
      (fun c => !(isExtractCall c))).length = 1 :=
  ⟨rfl, rfl, rfl⟩

/-- A second accepted pair (distinct images) for the C7 counterexample. -/
def demoPairData2 : PairData :=
  { demoPairData with img_1 := "c.jpg", img_2 := "d.jpg" }

unseal Rat.add Rat.mul Rat.sub in
/-- C7 counterexample: on a batch with two accepted pairs, the standalone
`crop_matching` (`cropping.py` lines 80-96, indented inside the loop)
invokes feature extraction twice — once per accepted pair — not exactly
once after all pairs as the claim states for every listed source. -/
theorem crop_matching_extracts_per_pair :
    (((crop_matching (Rat.divInt 1 2) (Rat.divInt 9 10)
        [demoPairData, demoPairData2]).2.filter isExtractCall).length = 2) ∧
    ((crop_matching (Rat.divInt 1 2) (Rat.divInt 9 10)
        [demoPairData, demoPairData2]).2.filter isExtractCall).length ≠ 1 :=
  ⟨by decide, by decide⟩
